import Mathlib

/-!
Verification of the WeatherVerify core pipeline (src/app.py) against its
natural-language specification.

The embedding below translates the four core operations of `app.py` into
Lean definitions:

* `geocode_city`   — the geocoding resolver (app.py lines 552-597);
* `get_historical_weather` — the archive fetcher (app.py lines 600-652);
* `generate_pdf_report`    — the pure report-content assembly inside the
  PDF generator (app.py lines 659-889), with the ambient clock reading
  (`datetime.now()`) made an explicit argument;
* `main_submit`    — the form-submission handler of `main`
  (app.py lines 1310-1383): validation, geocoding, fetching,
  classification, in source order, together with the trace of external
  calls it performs.

Python floats are embedded as `PFloat`: either NaN or an exact rational
value (every finite binary64 value is a rational; the decimal literals
appearing in the program are carried exactly).  Python float comparison
`x > 5.0` is `pgt`, which is false on NaN, as in IEEE-754.  The `"%.<k>f"`
format of CPython (correct rounding, ties to even, applied to the exact
value of the float) is embedded as `formatFixed`, computed over the
numerator and denominator with natural-number arithmetic.
-/

/-- A Python float: NaN or an exact rational value. -/
inductive PFloat where
  | nan : PFloat
  | val : ℚ → PFloat
deriving DecidableEq

/-- Python float comparison `x > t`: false when `x` is NaN. -/
def pgt : PFloat → ℚ → Bool
  | .nan, _ => false
  | .val q, t => decide (t < q)

/-- Digits of `n`, least significant first, with explicit fuel so the
definition is structural. -/
def digitsAux : ℕ → ℕ → List Char
  | 0, _ => []
  | _+1, 0 => []
  | fuel+1, n+1 => Nat.digitChar ((n+1) % 10) :: digitsAux fuel ((n+1) / 10)

/-- Decimal rendering of a natural number, as Python renders a
non-negative integer part. -/
def natStr (n : ℕ) : String :=
  if n = 0 then "0" else String.mk (digitsAux n n).reverse

/-- Exactly `dp` decimal digits of `n < 10 ^ dp`, most significant
first: the fractional part of a fixed-point rendering. -/
def fracStr (dp n : ℕ) : String :=
  String.mk ((List.range dp).map (fun i => Nat.digitChar (n / 10 ^ (dp - 1 - i) % 10)))

/-- CPython `format(q, ".<dp>f")` on the exact rational value `q` of a
float: sign, integer part, `.`, then exactly `dp` digits, rounding the
exact value to `dp` decimal places with ties to even.  Computed from the
reduced numerator/denominator by natural-number arithmetic. -/
def formatFixed (dp : ℕ) (q : ℚ) : String :=
  (if q.num < 0 then "-" else "") ++
  natStr (roundedScaled dp q / 10 ^ dp) ++ "." ++
  fracStr dp (roundedScaled dp q % 10 ^ dp)
where
  /-- The value `|q| * 10 ^ dp` rounded to an integer, ties to even. -/
  roundedScaled (dp : ℕ) (q : ℚ) : ℕ :=
    let a := q.num.natAbs * 10 ^ dp
    let fl := a / q.den
    let rem := a % q.den
    if 2 * rem < q.den then fl
    else if q.den < 2 * rem then fl + 1
    else if fl % 2 = 0 then fl else fl + 1

/-- CPython `f"x:.<dp>f"` on a float: `"nan"` on NaN, fixed-point
rendering of the exact value otherwise. -/
def pformat (dp : ℕ) : PFloat → String
  | .nan => "nan"
  | .val q => formatFixed dp q

/-- Python `", ".join(parts)` (app.py line 588). -/
def joinComma : List String → String
  | [] => ""
  | [x] => x
  | x :: y :: xs => x ++ ", " ++ joinComma (y :: xs)

/-- Python `not s or s.strip() == ""` (app.py line 1312): the string has
no non-whitespace character. -/
def isBlank (s : String) : Bool :=
  s.data.all (fun c => c.isWhitespace)

-- Sanity checks on the formatting embedding (CPython reference values).
example : formatFixed 2 (mkRat 124 10) = "12.40" := by decide
example : formatFixed 2 0 = "0.00" := by decide
example : formatFixed 4 (mkRat (-338688) 10000) = "-33.8688" := by decide
example : formatFixed 2 (mkRat 1 8) = "0.12" := by decide
example : formatFixed 2 (mkRat 3 8) = "0.38" := by decide
example : formatFixed 2 (mkRat (-1) 1000) = "-0.00" := by decide
example : formatFixed 1 3 = "3.0" := by decide
example : pformat 2 PFloat.nan = "nan" := by decide

/-- The two-state verdict classification (spec section 3, "Verdict"). -/
inductive Verdict where
  | SIGNIFICANT_RAIN
  | MINOR_OR_NONE
deriving DecidableEq

/-- Verdict classification and markdown text displayed by `main`
(app.py lines 1371-1383): `precipitation > 5.0` selects the significant
branch, otherwise the minor branch; both echo the value at 2 decimal
places. -/
def mainVerdict (precipitation : PFloat) : Verdict × String :=
  if pgt precipitation 5 then
    (.SIGNIFICANT_RAIN,
      "<div class=\"verdict-significant\">⚠️ SIGNIFICANT RAIN DETECTED<br/>" ++
        pformat 2 precipitation ++ "mm of rainfall recorded</div>")
  else
    (.MINOR_OR_NONE,
      "<div class=\"verdict-minor\">✅ MINOR/NO RAIN<br/>" ++
        pformat 2 precipitation ++ "mm of rainfall recorded</div>")

/-- Verdict classification and explanation text built inside
`generate_pdf_report` (app.py lines 811-819): the same `> 5.0`
comparison, with the PDF wording. -/
def pdfVerdict (precipitation : PFloat) : Verdict × String :=
  if pgt precipitation 5 then
    (.SIGNIFICANT_RAIN,
      "<b>SIGNIFICANT RAIN DETECTED:</b> The location experienced " ++
        pformat 2 precipitation ++
        "mm of rainfall, which constitutes significant precipitation that may have impacted outdoor activities or events.")
  else
    (.MINOR_OR_NONE,
      "<b>MINOR/NO RAIN:</b> The location experienced " ++
        pformat 2 precipitation ++
        "mm of rainfall, which constitutes minimal precipitation unlikely to significantly impact outdoor activities.")

/-- One candidate of the geocoding response: `latitude`, `longitude`
and `name` are required by `geocode_city`, `admin1` and `country` are
optional (app.py lines 578-587, spec section 6). -/
structure GeoCandidate where
  name : String
  latitude : ℚ
  longitude : ℚ
  admin1 : Option String
  country : Option String
deriving DecidableEq

/-- Outcome of the HTTP interaction in `geocode_city`:
`transportError` is a `requests.exceptions.RequestException` (network
failure, timeout, or the non-2xx raised by `raise_for_status`),
`malformed` is any other exception while decoding or reading the
response, and `ok` is a decoded body whose `results` array (absent
modelled as `[]`) holds the candidates. -/
inductive GeoResponse where
  | transportError (msg : String)
  | malformed (msg : String)
  | ok (results : List GeoCandidate)
deriving DecidableEq

/-- Embedding of `geocode_city` (app.py lines 552-597) as a function of the service
interaction outcome.  First component: the returned triple
`(latitude, longitude, full_location)`, `none` standing for the Python
return value `(None, None, None)`.  Second component: the error
messages the function itself displays via `st.error`. -/
def geocode_city : GeoResponse → Option (ℚ × ℚ × String) × List String
  | .transportError msg => (none, ["Error connecting to geocoding service: " ++ msg])
  | .malformed msg => (none, ["Unexpected error during geocoding: " ++ msg])
  | .ok [] => (none, [])
  | .ok (r :: _) =>
      (some (r.latitude, r.longitude,
        joinComma ([r.name] ++ r.admin1.toList ++ r.country.toList)), [])

/-- The display name as the specification words it (spec section 4.1):
name, optionally followed by region, optionally followed by country,
joined with `", "`, omitting any field the service did not return. -/
def specDisplayName (c : GeoCandidate) : String :=
  match c.admin1, c.country with
  | none, none => c.name
  | some a, none => c.name ++ ", " ++ a
  | none, some k => c.name ++ ", " ++ k
  | some a, some k => c.name ++ ", " ++ a ++ ", " ++ k

/-- The single-day series of the archive response's `daily` object
(app.py lines 635-643): index 0 of each requested metric. -/
structure DailyData where
  precipitation_sum : PFloat
  precipitation_hours : PFloat
  windspeed_10m_max : PFloat
  temperature_2m_max : PFloat
  temperature_2m_min : PFloat
  time : String
deriving DecidableEq

/-- Outcome of the HTTP interaction in `get_historical_weather`:
transport failure, other exception, or a decoded body with an optional
`daily` object and optional top-level `timezone`. -/
inductive WeatherResponse where
  | transportError (msg : String)
  | malformed (msg : String)
  | ok (daily : Option DailyData) (timezone : Option String)
deriving DecidableEq

/-- The dictionary built by `get_historical_weather` on success
(app.py lines 637-645). -/
structure WeatherData where
  precipitation_sum : PFloat
  precipitation_hours : PFloat
  windspeed_max : PFloat
  temperature_max : PFloat
  temperature_min : PFloat
  date : String
  timezone : String
deriving DecidableEq

/-- Embedding of `get_historical_weather` (app.py lines 600-652) as a function of
the service interaction outcome.  First component: the returned
dictionary, `none` standing for Python `None`; a body without the
`daily` key returns `none` with no message (line 632).  Second
component: the error messages displayed via `st.error`. -/
def get_historical_weather : WeatherResponse → Option WeatherData × List String
  | .transportError msg => (none, ["Error connecting to weather service: " ++ msg])
  | .malformed msg => (none, ["Unexpected error retrieving weather data: " ++ msg])
  | .ok none _ => (none, [])
  | .ok (some d) tz =>
      (some { precipitation_sum := d.precipitation_sum
              precipitation_hours := d.precipitation_hours
              windspeed_max := d.windspeed_10m_max
              temperature_max := d.temperature_2m_max
              temperature_min := d.temperature_2m_min
              date := d.time
              timezone := tz.getD ("UTC") }, [])

/-- A Gregorian calendar date. -/
structure GDate where
  year : ℕ
  month : ℕ
  day : ℕ
deriving DecidableEq

/-- A clock reading (`datetime.now()`), to minute precision as used by
the report header. -/
structure Stamp where
  year : ℕ
  month : ℕ
  day : ℕ
  hour : ℕ
  minute : ℕ
deriving DecidableEq

/-- Full English month names, as produced by `strftime("%B")`. -/
def monthNames : List String :=
  ["January", "February", "March", "April", "May", "June", "July",
   "August", "September", "October", "November", "December"]

/-- Behaviour of `strftime("%B")`: full month name of month number `m` (1-12). -/
def monthName (m : ℕ) : String :=
  (monthNames.getD (m - 1) (""))

/-- Weekday names indexed by Zeller's congruence value
(0 = Saturday). -/
def weekdayNames : List String :=
  ["Saturday", "Sunday", "Monday", "Tuesday", "Wednesday", "Thursday", "Friday"]

/-- Day of week of a Gregorian date by Zeller's congruence
(0 = Saturday), embedding the weekday computation behind
`strftime("%A")`. -/
def dayOfWeekZ (y m d : ℕ) : ℕ :=
  let y2 := if m < 3 then y - 1 else y
  let m2 := if m < 3 then m + 12 else m
  let K := y2 % 100
  let J := y2 / 100
  (d + 13 * (m2 + 1) / 5 + K + K / 4 + J / 4 + 5 * J) % 7

/-- Behaviour of `strftime("%A")`: full weekday name. -/
def weekdayName (h : ℕ) : String :=
  (weekdayNames.getD h (""))

/-- Two-digit zero-padded rendering, as in `strftime("%d")`, `"%H"`,
`"%M"`. -/
def pad2 (n : ℕ) : String :=
  if n < 10 then "0" ++ natStr n else natStr n

/-- Embedding of `incident_date.strftime('%B %d, %Y (%A)')` (app.py line 757). -/
def formatDateLong (dt : GDate) : String :=
  monthName dt.month ++ " " ++ pad2 dt.day ++ ", " ++ natStr dt.year ++
    " (" ++ weekdayName (dayOfWeekZ dt.year dt.month dt.day) ++ ")"

/-- Embedding of `datetime.now().strftime('%B %d, %Y at %H:%M')` (app.py
line 721). -/
def formatStamp (t : Stamp) : String :=
  monthName t.month ++ " " ++ pad2 t.day ++ ", " ++ natStr t.year ++
    " at " ++ pad2 t.hour ++ ":" ++ pad2 t.minute

-- Sanity: 2024-03-15 was a Friday.
example : weekdayName (dayOfWeekZ 2024 3 15) = "Friday" := by decide
example : formatDateLong ⟨2024, 3, 15⟩ = "March 15, 2024 (Friday)" := by decide

/-- The data content of the PDF report built by `generate_pdf_report`
(app.py lines 659-889): the title, the generation line, the three
tables, the verdict, and the footer — everything the renderer consumes,
stripped of styling. -/
structure ReportContent where
  title : String
  reportGenerated : String
  locationRows : List (String × String)
  incidentRows : List (String × String)
  weatherRows : List (List String)
  verdictKind : Verdict
  verdictText : String
  footerText : String
deriving DecidableEq

/-- Embedding of `generate_pdf_report` (app.py lines 659-889), restricted to the
report data it assembles.  The function reads the clock via
`datetime.now()` (line 721); that ambient reading is the explicit
argument `now` here — the Python signature has no timestamp
parameter. -/
def generate_pdf_report (city_name location_full : String)
    (latitude longitude : ℚ) (incident_date : GDate)
    (weather_data : WeatherData) (now : Stamp) : ReportContent :=
  { title := "OFFICIAL WEATHER VERIFICATION REPORT"
    reportGenerated := "Report Generated: " ++ formatStamp now
    locationRows :=
      [("Location:", location_full),
       ("Coordinates:", formatFixed 4 latitude ++ "°N, " ++ formatFixed 4 longitude ++ "°E"),
       ("Timezone:", weather_data.timezone)]
    incidentRows :=
      [("Date of Incident:", formatDateLong incident_date),
       ("Report Purpose:", "Insurance Claim / Event Refund / Work Dispute")]
    weatherRows :=
      [["Metric", "Value", "Unit"],
       ["Total Precipitation", pformat 2 weather_data.precipitation_sum, "mm"],
       ["Precipitation Hours", pformat 1 weather_data.precipitation_hours, "hours"],
       ["Maximum Temperature", pformat 1 weather_data.temperature_max, "°C"],
       ["Minimum Temperature", pformat 1 weather_data.temperature_min, "°C"],
       ["Maximum Wind Speed", pformat 1 weather_data.windspeed_max, "km/h"]]
    verdictKind := (pdfVerdict weather_data.precipitation_sum).1
    verdictText := (pdfVerdict weather_data.precipitation_sum).2
    footerText := "Generated by WeatherVerify.com - Your Trusted Weather Verification Service" }

/-- The external calls `main` can make while handling a submission. -/
inductive ExtCall where
  | geocodeCall
  | weatherCall
deriving DecidableEq

/-- Terminal outcome of one form submission in `main` (app.py
lines 1310-1383). -/
inductive PipelineResult where
  | invalidCityName
  | invalidDate
  | locationNotFound (city : String)
  | weatherUnavailable
  | success (location_full : String) (latitude longitude : ℚ)
      (wd : WeatherData) (verdictMarkdown : String)
deriving DecidableEq

/-- The outcomes the spec classes as user-input failures (`InvalidInput`),
as opposed to downstream service failures. -/
def isUserInputFailure : PipelineResult → Bool
  | .invalidCityName => true
  | .invalidDate => true
  | _ => false

/-- The form-submission handler of `main` (app.py lines 1310-1383) as a
function of the user input, today's date, and the outcome each external
service would give if called.  Dates are day numbers (any linear
ordering of calendar days).  Returns the terminal outcome and the trace
of external calls actually performed, in order:
line 1312 rejects a missing or whitespace-only city name, line 1316
rejects `incident_date >= date.today()`, line 1322 calls the geocoder,
line 1324 stops if it returned `None`, line 1332 calls the archive,
line 1334 stops if it returned `None`, lines 1371-1383 classify. -/
def main_submit (city_name : String) (incident_date today : ℤ)
    (geo : GeoResponse) (wx : WeatherResponse) : PipelineResult × List ExtCall :=
  if isBlank city_name then (.invalidCityName, [])
  else if today ≤ incident_date then (.invalidDate, [])
  else
    match (geocode_city geo).1 with
    | none => (.locationNotFound city_name, [.geocodeCall])
    | some (lat, lon, loc) =>
        match (get_historical_weather wx).1 with
        | none => (.weatherUnavailable, [.geocodeCall, .weatherCall])
        | some wd =>
            (.success loc lat lon wd (mainVerdict wd.precipitation_sum).2,
             [.geocodeCall, .weatherCall])

/-! ## Helper lemmas about the string-building machinery -/

theorem str_data_append (a b : String) : (a ++ b).data = a.data ++ b.data := rfl

theorem str_append_assoc (a b c : String) : a ++ b ++ c = a ++ (b ++ c) := by
  cases a with | mk la =>
  cases b with | mk lb =>
  cases c with | mk lc =>
  exact congrArg String.mk (List.append_assoc la lb lc)

theorem digitChar_isDigit {k : ℕ} (h : k < 10) : (Nat.digitChar k).isDigit = true := by
  interval_cases k <;> decide

theorem digitsAux_digits : ∀ fuel n : ℕ, ∀ c ∈ digitsAux fuel n, c.isDigit = true := by
  intro fuel
  induction fuel with
  | zero => intro n c hc; simp [digitsAux] at hc
  | succ f ih =>
    intro n c hc
    cases n with
    | zero => simp [digitsAux] at hc
    | succ m =>
      simp only [digitsAux, List.mem_cons] at hc
      rcases hc with h | h
      · subst h; exact digitChar_isDigit (Nat.mod_lt _ (by norm_num))
      · exact ih _ c h

theorem natStr_digits (n : ℕ) : ∀ c ∈ (natStr n).data, c.isDigit = true := by
  intro c hc
  unfold natStr at hc
  split at hc
  · have h0 : c ∈ ['0'] := hc
    simp only [List.mem_singleton] at h0
    subst h0; decide
  · have hr : c ∈ (digitsAux n n).reverse := hc
    rw [List.mem_reverse] at hr
    exact digitsAux_digits n n c hr

theorem fracStr_digits (dp n : ℕ) : ∀ c ∈ (fracStr dp n).data, c.isDigit = true := by
  intro c hc
  have hd : c ∈ (List.range dp).map (fun i => Nat.digitChar (n / 10 ^ (dp - 1 - i) % 10)) := hc
  simp only [List.mem_map, List.mem_range] at hd
  obtain ⟨i, _, rfl⟩ := hd
  exact digitChar_isDigit (Nat.mod_lt _ (by norm_num))

theorem fracStr_length (dp n : ℕ) : (fracStr dp n).length = dp := by
  simp [fracStr, String.length]

/-- A string carries a fixed-point value to exactly `dp` decimal
places: its final `.` is followed by exactly `dp` digit characters. -/
def formattedTo (dp : ℕ) (s : String) : Prop :=
  ∃ pre post : String, s = pre ++ "." ++ post ∧ post.length = dp ∧
    ∀ c ∈ post.data, c.isDigit = true

theorem formatFixed_formattedTo (dp : ℕ) (q : ℚ) : formattedTo dp (formatFixed dp q) :=
  ⟨(if q.num < 0 then "-" else "") ++ natStr (formatFixed.roundedScaled dp q / 10 ^ dp),
   fracStr dp (formatFixed.roundedScaled dp q % 10 ^ dp),
   rfl, fracStr_length _ _, fracStr_digits _ _⟩

theorem formatFixed_chars (dp : ℕ) (q : ℚ) :
    ∀ c ∈ (formatFixed dp q).data, c.isDigit = true ∨ c = '-' ∨ c = '.' := by
  intro c hc
  unfold formatFixed at hc
  simp only [str_data_append, List.mem_append] at hc
  rcases hc with ((h1 | h2) | h3) | h4
  · split at h1
    · have h0 : c ∈ ['-'] := h1
      simp only [List.mem_singleton] at h0
      right; left; exact h0
    · have h0 : c ∈ ([] : List Char) := h1
      simp at h0
  · left; exact natStr_digits _ c h2
  · have h0 : c ∈ ['.'] := h3
    simp only [List.mem_singleton] at h0
    right; right; exact h0
  · left; exact fracStr_digits _ _ c h4

theorem formatFixed_neg (dp : ℕ) (q : ℚ) (h : q < 0) :
    ∃ rest, (formatFixed dp q).data = '-' :: rest := by
  have hn : q.num < 0 := Rat.num_neg.mpr h
  unfold formatFixed
  rw [if_pos hn]
  exact ⟨_, rfl⟩

theorem not_SW_of_chars {c : Char} (h : c.isDigit = true ∨ c = '-' ∨ c = '.') :
    c ≠ 'S' ∧ c ≠ 'W' := by
  constructor <;> rintro rfl <;> rcases h with h | h | h <;> exact absurd h (by decide)

/-! ## Claim theorems -/

/-- C1: for every precipitation value `p`, the verdict classification is
SIGNIFICANT_RAIN if and only if `p > 5.0`; `p = 5.0` classifies
MINOR_OR_NONE; and the two classification sites (the in-page verdict of
`main` and the verdict section of `generate_pdf_report`) agree on every
input, both using the fixed `5.0` threshold. -/
theorem classify_threshold :
    ∀ (q : ℚ) (x : PFloat),
      ((mainVerdict (PFloat.val q)).1 = Verdict.SIGNIFICANT_RAIN ↔ 5 < q) ∧
      ((pdfVerdict (PFloat.val q)).1 = Verdict.SIGNIFICANT_RAIN ↔ 5 < q) ∧
      (mainVerdict (PFloat.val 5)).1 = Verdict.MINOR_OR_NONE ∧
      (mainVerdict x).1 = (pdfVerdict x).1 := by
  intro q x
  refine ⟨?_, ?_, ?_, ?_⟩
  · by_cases h : (5 : ℚ) < q <;> simp [mainVerdict, pgt, h]
  · by_cases h : (5 : ℚ) < q <;> simp [pdfVerdict, pgt, h]
  · simp [mainVerdict, pgt]
  · cases x with
    | nan => simp [mainVerdict, pdfVerdict, pgt]
    | val q2 => by_cases h : (5 : ℚ) < q2 <;> simp [mainVerdict, pdfVerdict, pgt, h]

/-- C2 counterexample: zero candidates, a transport failure, and a
malformed response all yield the same return value
(`(None, None, None)`, embedded as `none`) at the resolver's interface,
so the caller cannot branch on which of the three occurred; in
particular "location not found" is not distinguishable from
"geocoding service unavailable" in the returned value. -/
theorem geocode_failures_indistinguishable :
    (geocode_city (GeoResponse.ok [])).1 =
      (geocode_city (GeoResponse.transportError ("Connection timed out"))).1 ∧
    (geocode_city (GeoResponse.ok [])).1 =
      (geocode_city (GeoResponse.malformed ("string indices must be integers"))).1 :=
  ⟨rfl, rfl⟩

/-- C2 amended: all three failure conditions of `geocode_city` return
the same `(None, None, None)` value, so the caller cannot branch on
which occurred; the three differ only in the error message the resolver
itself displays as a side effect ( none for zero candidates, a distinct
message for transport failure and for a malformed response), while a
successful response returns a non-`None` triple. -/
theorem geocode_failure_interface (m1 m2 : String) (c : GeoCandidate)
    (rest : List GeoCandidate) :
    (geocode_city (GeoResponse.ok [])).1 = none ∧
    (geocode_city (GeoResponse.transportError m1)).1 = none ∧
    (geocode_city (GeoResponse.malformed m2)).1 = none ∧
    (geocode_city (GeoResponse.ok [])).2 = [] ∧
    (geocode_city (GeoResponse.transportError m1)).2 =
      ["Error connecting to geocoding service: " ++ m1] ∧
    (geocode_city (GeoResponse.malformed m2)).2 =
      ["Unexpected error during geocoding: " ++ m2] ∧
    ∃ v, (geocode_city (GeoResponse.ok (c :: rest))).1 = some v := by
  exact ⟨rfl, rfl, rfl, rfl, rfl, rfl, ⟨_, rfl⟩⟩

/-- C7: on a successful geocode response, `geocode_city` returns the
first candidate's latitude and longitude, and the display name is the
candidate's name, optionally followed by its region (`admin1`),
optionally followed by its country, joined with `", "`, omitting the
optional fields the service did not return. -/
theorem geocode_display_name (c : GeoCandidate) (rest : List GeoCandidate) :
    (geocode_city (GeoResponse.ok (c :: rest))).1 =
      some (c.latitude, c.longitude, specDisplayName c) := by
  cases h1 : c.admin1 <;> cases h2 : c.country <;>
    simp [geocode_city, specDisplayName, joinComma, h1, h2, Option.toList,
      str_append_assoc]

/-- Inputs the classifier must tolerate defensively: NaN or a negative
value. -/
def isNegOrNan : PFloat → Prop
  | .nan => True
  | .val q => q < 0

/-- C8: the verdict classification is total: on a negative or NaN
precipitation value it does not fail, produces MINOR_OR_NONE at both
classification sites, and both explanation texts echo the rendered raw
input value (CPython prints `nan` for NaN under `:.2f`). -/
theorem classify_defensive (x : PFloat) (h : isNegOrNan x) :
    (mainVerdict x).1 = Verdict.MINOR_OR_NONE ∧
    (pdfVerdict x).1 = Verdict.MINOR_OR_NONE ∧
    (∃ pre post, (mainVerdict x).2 = pre ++ pformat 2 x ++ post) ∧
    (∃ pre post, (pdfVerdict x).2 = pre ++ pformat 2 x ++ post) := by
  have hf : pgt x 5 = false := by
    cases x with
    | nan => rfl
    | val q =>
      simp only [isNegOrNan] at h
      exact decide_eq_false (by linarith)
  refine ⟨?_, ?_, ?_, ?_⟩
  · simp [mainVerdict, hf]
  · simp [pdfVerdict, hf]
  · exact ⟨"<div class=\"verdict-minor\">✅ MINOR/NO RAIN<br/>",
      "mm of rainfall recorded</div>", by simp [mainVerdict, hf]⟩
  · exact ⟨"<b>MINOR/NO RAIN:</b> The location experienced ",
      "mm of rainfall, which constitutes minimal precipitation unlikely to significantly impact outdoor activities.",
      by simp [pdfVerdict, hf]⟩

/-- C8 witness: the defensive-classification theorem applied to NaN. -/
theorem classify_defensive_witness :
    isNegOrNan PFloat.nan ∧
    ((mainVerdict PFloat.nan).1 = Verdict.MINOR_OR_NONE ∧
     (pdfVerdict PFloat.nan).1 = Verdict.MINOR_OR_NONE ∧
     (∃ pre post, (mainVerdict PFloat.nan).2 = pre ++ pformat 2 PFloat.nan ++ post) ∧
     (∃ pre post, (pdfVerdict PFloat.nan).2 = pre ++ pformat 2 PFloat.nan ++ post)) :=
  ⟨trivial, classify_defensive PFloat.nan trivial⟩

/-- C3 counterexample: two calls of `generate_pdf_report` with
field-for-field identical inputs (city, location, coordinates, incident
date, weather metrics) but made one minute apart produce different
reports — the "Report Generated" line is derived from the ambient clock
(`datetime.now()`, app.py line 721), not from any externally supplied
timestamp, so the timestamp drifts between the calls. -/
theorem report_timestamp_drift :
    generate_pdf_report ("London") ("London, England, United Kingdom")
        (mkRat 515 10) (mkRat (-12) 100) ⟨2024, 3, 15⟩
        ⟨PFloat.val (mkRat 124 10), PFloat.val 3, PFloat.val (mkRat 205 10),
         PFloat.val (mkRat 71 10), PFloat.val 2, "2024-03-15", "Europe/London"⟩
        ⟨2026, 1, 10, 14, 30⟩ ≠
      generate_pdf_report ("London") ("London, England, United Kingdom")
        (mkRat 515 10) (mkRat (-12) 100) ⟨2024, 3, 15⟩
        ⟨PFloat.val (mkRat 124 10), PFloat.val 3, PFloat.val (mkRat 205 10),
         PFloat.val (mkRat 71 10), PFloat.val 2, "2024-03-15", "Europe/London"⟩
        ⟨2026, 1, 10, 14, 31⟩ := by
  decide

/-- C3 amended: `generate_pdf_report` takes no generation-timestamp
parameter; with identical inputs, two calls agree on every report field
except possibly the "Report Generated" line, and they agree on that line
too exactly when the ambient clock reading is the same — so the
operation is deterministic in its inputs plus the clock, and the
field-for-field idempotence claimed by the spec holds only once the
clock reading is fixed. -/
theorem generate_pdf_report_pure (cn lf : String) (la lo : ℚ) (dt : GDate)
    (w : WeatherData) (t1 t2 : Stamp) :
    (generate_pdf_report cn lf la lo dt w t1).title =
      (generate_pdf_report cn lf la lo dt w t2).title ∧
    (generate_pdf_report cn lf la lo dt w t1).locationRows =
      (generate_pdf_report cn lf la lo dt w t2).locationRows ∧
    (generate_pdf_report cn lf la lo dt w t1).incidentRows =
      (generate_pdf_report cn lf la lo dt w t2).incidentRows ∧
    (generate_pdf_report cn lf la lo dt w t1).weatherRows =
      (generate_pdf_report cn lf la lo dt w t2).weatherRows ∧
    (generate_pdf_report cn lf la lo dt w t1).verdictKind =
      (generate_pdf_report cn lf la lo dt w t2).verdictKind ∧
    (generate_pdf_report cn lf la lo dt w t1).verdictText =
      (generate_pdf_report cn lf la lo dt w t2).verdictText ∧
    (generate_pdf_report cn lf la lo dt w t1).footerText =
      (generate_pdf_report cn lf la lo dt w t2).footerText ∧
    (t1 = t2 →
      generate_pdf_report cn lf la lo dt w t1 = generate_pdf_report cn lf la lo dt w t2) := by
  refine ⟨rfl, rfl, rfl, rfl, rfl, rfl, rfl, ?_⟩
  rintro rfl
  rfl

/-- C3 witness: the amended theorem applied at a concrete input with
the clock reading fixed. -/
theorem generate_pdf_report_pure_witness :
    generate_pdf_report ("London") ("London, England, United Kingdom") 1 2 ⟨2024, 1, 1⟩
        ⟨PFloat.val 0, PFloat.val 0, PFloat.val 0, PFloat.val 0, PFloat.val 0,
         "2024-01-01", "Europe/London"⟩ ⟨2026, 1, 10, 9, 0⟩ =
      generate_pdf_report ("London") ("London, England, United Kingdom") 1 2 ⟨2024, 1, 1⟩
        ⟨PFloat.val 0, PFloat.val 0, PFloat.val 0, PFloat.val 0, PFloat.val 0,
         "2024-01-01", "Europe/London"⟩ ⟨2026, 1, 10, 9, 0⟩ :=
  (generate_pdf_report_pure ("London") ("London, England, United Kingdom") 1 2 ⟨2024, 1, 1⟩
      ⟨PFloat.val 0, PFloat.val 0, PFloat.val 0, PFloat.val 0, PFloat.val 0,
       "2024-01-01", "Europe/London"⟩ ⟨2026, 1, 10, 9, 0⟩
      ⟨2026, 1, 10, 9, 0⟩).2.2.2.2.2.2.2 rfl

/-- C4: the submission handler rejects a blank (empty or
whitespace-only) place name and any incident date that is not strictly
in the past — a user-input failure occurs exactly when one of those two
conditions holds, so today's date and future dates are rejected while
yesterday's date (with a non-blank name) is accepted; every such
rejection happens with an empty external-call trace, i.e. before any
network call; and the downstream failure outcomes are not user-input
failures. -/
theorem main_submit_validation (city : String) (d today : ℤ)
    (geo : GeoResponse) (wx : WeatherResponse) :
    (isUserInputFailure (main_submit city d today geo wx).1 = true ↔
      (isBlank city = true ∨ today ≤ d)) ∧
    (isUserInputFailure (main_submit city d today geo wx).1 = true →
      (main_submit city d today geo wx).2 = []) ∧
    (isBlank city = false →
      isUserInputFailure (main_submit city (today - 1) today geo wx).1 = false) ∧
    (∀ c2, isUserInputFailure (PipelineResult.locationNotFound c2) = false) ∧
    isUserInputFailure PipelineResult.weatherUnavailable = false := by
  have key : ∀ (d2 : ℤ), isBlank city = false → ¬ (today ≤ d2) →
      isUserInputFailure (main_submit city d2 today geo wx).1 = false := by
    intro d2 hb hd
    simp only [main_submit, hb, Bool.false_eq_true, if_false, hd, if_true]
    cases hg : (geocode_city geo).1 with
    | none => simp [hg, isUserInputFailure]
    | some v =>
      obtain ⟨la, lo, loc⟩ := v
      cases hw : (get_historical_weather wx).1 <;>
        simp [hg, hw, isUserInputFailure]
  refine ⟨⟨?_, ?_⟩, ?_, ?_, fun c2 => rfl, rfl⟩
  · intro h
    by_contra hcon
    push_neg at hcon
    obtain ⟨h1, h2⟩ := hcon
    have hb : isBlank city = false := by
      cases hcb : isBlank city
      · rfl
      · exact absurd hcb h1
    rw [key d hb (by omega)] at h
    exact absurd h (by decide)
  · intro h
    rcases h with hb | hd
    · simp [main_submit, hb, isUserInputFailure]
    · by_cases hb : isBlank city = true
      · simp [main_submit, hb, isUserInputFailure]
      · have hb2 : isBlank city = false := by
          cases hcb : isBlank city
          · rfl
          · exact absurd hcb hb
        simp [main_submit, hb2, hd, isUserInputFailure]
  · intro h
    by_cases hb : isBlank city = true
    · simp [main_submit, hb]
    · by_cases hd : today ≤ d
      · have hb2 : isBlank city = false := by
          cases hcb : isBlank city
          · rfl
          · exact absurd hcb hb
        simp [main_submit, hb2, hd]
      · have hb2 : isBlank city = false := by
          cases hcb : isBlank city
          · rfl
          · exact absurd hcb hb
        rw [key d hb2 hd] at h
        exact absurd h (by decide)
  · intro hb
    have hd : ¬ (today ≤ today - 1) := by omega
    exact key (today - 1) hb hd

/-- C4 witness: a whitespace-only name is rejected; a non-blank name
with yesterday's date is not rejected by validation. -/
theorem main_submit_validation_witness :
    isUserInputFailure
      (main_submit (" ") 5 10 (GeoResponse.ok []) (WeatherResponse.ok none none)).1 = true ∧
    isUserInputFailure
      (main_submit ("London") (10 - 1) 10 (GeoResponse.ok [])
        (WeatherResponse.ok none none)).1 = false :=
  ⟨(main_submit_validation (" ") 5 10 (GeoResponse.ok [])
      (WeatherResponse.ok none none)).1.mpr (Or.inl (by decide)),
   (main_submit_validation ("London") 0 10 (GeoResponse.ok [])
      (WeatherResponse.ok none none)).2.2.1 (by decide)⟩

/-- C5: when the archive response lacks the `daily` key,
`get_historical_weather` returns the unavailable outcome (`None`), and
a submission that passed validation and geocoding fails with the
data-unavailable outcome — no success value (and hence no report) is
produced. -/
theorem archive_missing_daily (city : String) (d today : ℤ) (geo : GeoResponse)
    (tz : Option String)
    (h1 : isBlank city = false) (h2 : d < today)
    (h3 : (geocode_city geo).1 ≠ none) :
    (get_historical_weather (WeatherResponse.ok none tz)).1 = none ∧
    (main_submit city d today geo (WeatherResponse.ok none tz)).1 =
      PipelineResult.weatherUnavailable ∧
    ∀ lf la lo w v,
      (main_submit city d today geo (WeatherResponse.ok none tz)).1 ≠
        PipelineResult.success lf la lo w v := by
  have hd : ¬ (today ≤ d) := by omega
  cases hg : (geocode_city geo).1 with
  | none => exact absurd hg h3
  | some v =>
    obtain ⟨la, lo, loc⟩ := v
    have he : (main_submit city d today geo (WeatherResponse.ok none tz)).1 =
        PipelineResult.weatherUnavailable := by
      simp [main_submit, h1, hd, hg, get_historical_weather]
    refine ⟨rfl, he, ?_⟩
    intro lf la2 lo2 w v2
    rw [he]
    simp

/-- C5 witness: a concrete valid submission against an archive response
with no `daily` key. -/
theorem archive_missing_daily_witness :
    (get_historical_weather (WeatherResponse.ok none none)).1 = none ∧
    (main_submit ("London") 5 10
      (GeoResponse.ok [⟨"London", mkRat 515 10, mkRat (-12) 100, none,
        some ("United Kingdom")⟩])
      (WeatherResponse.ok none none)).1 = PipelineResult.weatherUnavailable ∧
    ∀ lf la lo w v,
      (main_submit ("London") 5 10
        (GeoResponse.ok [⟨"London", mkRat 515 10, mkRat (-12) 100, none,
          some ("United Kingdom")⟩])
        (WeatherResponse.ok none none)).1 ≠ PipelineResult.success lf la lo w v :=
  archive_missing_daily ("London") 5 10
    (GeoResponse.ok [⟨"London", mkRat 515 10, mkRat (-12) 100, none,
      some ("United Kingdom")⟩])
    none (by decide) (by decide) (by decide)

/-- C6: when the place name cannot be resolved (the geocoder returns
`None`), a submission that passed validation terminates with the
location-not-found outcome, the external-call trace contains only the
geocode call — the weather fetch is never attempted — and no success
value (and hence no report) is produced. -/
theorem location_not_found_short_circuit (city : String) (d today : ℤ)
    (geo : GeoResponse) (wx : WeatherResponse)
    (h1 : isBlank city = false) (h2 : d < today)
    (h3 : (geocode_city geo).1 = none) :
    main_submit city d today geo wx =
      (PipelineResult.locationNotFound city, [ExtCall.geocodeCall]) ∧
    ExtCall.weatherCall ∉ (main_submit city d today geo wx).2 ∧
    ∀ lf la lo w v,
      (main_submit city d today geo wx).1 ≠ PipelineResult.success lf la lo w v := by
  have hd : ¬ (today ≤ d) := by omega
  have he : main_submit city d today geo wx =
      (PipelineResult.locationNotFound city, [ExtCall.geocodeCall]) := by
    simp [main_submit, h1, hd, h3]
  refine ⟨he, ?_, ?_⟩
  · rw [he]
    simp
  · intro lf la lo w v
    rw [he]
    simp

/-- C6 witness: a concrete valid submission whose place name resolves
to zero candidates. -/
theorem location_not_found_short_circuit_witness :
    main_submit ("Atlantis") 5 10 (GeoResponse.ok [])
        (WeatherResponse.ok none none) =
      (PipelineResult.locationNotFound ("Atlantis"), [ExtCall.geocodeCall]) ∧
    ExtCall.weatherCall ∉
      (main_submit ("Atlantis") 5 10 (GeoResponse.ok [])
        (WeatherResponse.ok none none)).2 ∧
    ∀ lf la lo w v,
      (main_submit ("Atlantis") 5 10 (GeoResponse.ok [])
        (WeatherResponse.ok none none)).1 ≠ PipelineResult.success lf la lo w v :=
  location_not_found_short_circuit ("Atlantis") 5 10 (GeoResponse.ok [])
    (WeatherResponse.ok none none) (by decide) (by decide) (by decide)

/-- C9: the assembled report follows the fixed formatting policy —
precipitation sum rendered to 2 decimal places; precipitation hours,
temperatures and wind speed to 1 decimal place; each coordinate to 4
decimal places; and the incident date phrased as full month name, day,
year, and weekday name. -/
theorem report_formatting (cn lf : String) (la lo : ℚ) (dt : GDate)
    (w : WeatherData) (t : Stamp) (qs qh qx qn qw : ℚ)
    (hs : w.precipitation_sum = PFloat.val qs)
    (hh : w.precipitation_hours = PFloat.val qh)
    (hx : w.temperature_max = PFloat.val qx)
    (hn : w.temperature_min = PFloat.val qn)
    (hw : w.windspeed_max = PFloat.val qw)
    (hm1 : 1 ≤ dt.month) (hm2 : dt.month ≤ 12) :
    (generate_pdf_report cn lf la lo dt w t).weatherRows =
      [["Metric", "Value", "Unit"],
       ["Total Precipitation", formatFixed 2 qs, "mm"],
       ["Precipitation Hours", formatFixed 1 qh, "hours"],
       ["Maximum Temperature", formatFixed 1 qx, "°C"],
       ["Minimum Temperature", formatFixed 1 qn, "°C"],
       ["Maximum Wind Speed", formatFixed 1 qw, "km/h"]] ∧
    formattedTo 2 (formatFixed 2 qs) ∧ formattedTo 1 (formatFixed 1 qh) ∧
    formattedTo 1 (formatFixed 1 qx) ∧ formattedTo 1 (formatFixed 1 qn) ∧
    formattedTo 1 (formatFixed 1 qw) ∧
    (generate_pdf_report cn lf la lo dt w t).locationRows =
      [("Location:", lf),
       ("Coordinates:",
         formatFixed 4 la ++ "°N, " ++ formatFixed 4 lo ++ "°E"),
       ("Timezone:", w.timezone)] ∧
    formattedTo 4 (formatFixed 4 la) ∧ formattedTo 4 (formatFixed 4 lo) ∧
    monthName dt.month ∈ monthNames ∧
    weekdayName (dayOfWeekZ dt.year dt.month dt.day) ∈ weekdayNames ∧
    (generate_pdf_report cn lf la lo dt w t).incidentRows =
      [("Date of Incident:",
         monthName dt.month ++ " " ++ pad2 dt.day ++ ", " ++ natStr dt.year ++
           " (" ++ weekdayName (dayOfWeekZ dt.year dt.month dt.day) ++ ")"),
       ("Report Purpose:", "Insurance Claim / Event Refund / Work Dispute")] := by
  refine ⟨?_, formatFixed_formattedTo 2 qs, formatFixed_formattedTo 1 qh,
    formatFixed_formattedTo 1 qx, formatFixed_formattedTo 1 qn,
    formatFixed_formattedTo 1 qw, rfl,
    formatFixed_formattedTo 4 la, formatFixed_formattedTo 4 lo, ?_, ?_, rfl⟩
  · simp [generate_pdf_report, pformat, hs, hh, hx, hn, hw]
  · obtain ⟨y, m, dd⟩ := dt
    have hb1 : 1 ≤ m := hm1
    have hb2 : m ≤ 12 := hm2
    show monthName m ∈ monthNames
    interval_cases m <;> decide
  · have h7 : dayOfWeekZ dt.year dt.month dt.day < 7 := Nat.mod_lt _ (by norm_num)
    revert h7
    generalize dayOfWeekZ dt.year dt.month dt.day = k
    intro h7
    interval_cases k <;> decide

/-- C9 witness: the formatting theorem applied to a concrete report,
with the rendered cells evaluated. -/
theorem report_formatting_witness :
    (generate_pdf_report ("London") ("London, England, United Kingdom")
        (mkRat 515 10) (mkRat (-12) 100) ⟨2024, 3, 15⟩
        ⟨PFloat.val (mkRat 124 10), PFloat.val 3, PFloat.val (mkRat 205 10),
         PFloat.val (mkRat 71 10), PFloat.val 2, "2024-03-15", "Europe/London"⟩
        ⟨2026, 1, 10, 14, 30⟩).weatherRows =
      [["Metric", "Value", "Unit"],
       ["Total Precipitation", "12.40", "mm"],
       ["Precipitation Hours", "3.0", "hours"],
       ["Maximum Temperature", "7.1", "°C"],
       ["Minimum Temperature", "2.0", "°C"],
       ["Maximum Wind Speed", "20.5", "km/h"]] ∧
    (generate_pdf_report ("London") ("London, England, United Kingdom")
        (mkRat 515 10) (mkRat (-12) 100) ⟨2024, 3, 15⟩
        ⟨PFloat.val (mkRat 124 10), PFloat.val 3, PFloat.val (mkRat 205 10),
         PFloat.val (mkRat 71 10), PFloat.val 2, "2024-03-15", "Europe/London"⟩
        ⟨2026, 1, 10, 14, 30⟩).incidentRows =
      [("Date of Incident:", "March 15, 2024 (Friday)"),
       ("Report Purpose:", "Insurance Claim / Event Refund / Work Dispute")] := by
  have h := report_formatting ("London") ("London, England, United Kingdom")
    (mkRat 515 10) (mkRat (-12) 100) ⟨2024, 3, 15⟩
    ⟨PFloat.val (mkRat 124 10), PFloat.val 3, PFloat.val (mkRat 205 10),
     PFloat.val (mkRat 71 10), PFloat.val 2, "2024-03-15", "Europe/London"⟩
    ⟨2026, 1, 10, 14, 30⟩ (mkRat 124 10) 3 (mkRat 71 10) 2 (mkRat 205 10)
    rfl rfl rfl rfl rfl (by decide) (by decide)
  constructor
  · rw [h.1]
    decide
  · rw [h.2.2.2.2.2.2.2.2.2.2.2]
    decide

/-- C10: the coordinates line of the assembled report always carries
the fixed suffixes `°N` and `°E`: its characters never include `S` or
`W`, and a negative (southern-hemisphere) latitude is rendered as a
negative number — the line then starts with `-` — rather than being
converted to `°S`/`°W` notation. -/
theorem coordinates_fixed_suffix (cn lf : String) (la lo : ℚ) (dt : GDate)
    (w : WeatherData) (t : Stamp) :
    (generate_pdf_report cn lf la lo dt w t).locationRows =
      [("Location:", lf),
       ("Coordinates:",
         formatFixed 4 la ++ "°N, " ++ formatFixed 4 lo ++ "°E"),
       ("Timezone:", w.timezone)] ∧
    (∀ c ∈ (formatFixed 4 la ++ "°N, " ++ formatFixed 4 lo ++ "°E").data,
      c ≠ 'S' ∧ c ≠ 'W') ∧
    (la < 0 →
      (formatFixed 4 la ++ "°N, " ++ formatFixed 4 lo ++ "°E").data.head? =
        some '-') := by
  refine ⟨rfl, ?_, ?_⟩
  · intro c hc
    simp only [str_data_append, List.mem_append] at hc
    rcases hc with ((h1 | h2) | h3) | h4
    · exact not_SW_of_chars (formatFixed_chars 4 la c h1)
    · constructor <;> rintro rfl <;> revert h2 <;> decide
    · exact not_SW_of_chars (formatFixed_chars 4 lo c h3)
    · constructor <;> rintro rfl <;> revert h4 <;> decide
  · intro hneg
    obtain ⟨rest, hr⟩ := formatFixed_neg 4 la hneg
    simp [str_data_append, hr]

/-- C10 witness: Sydney's coordinates — negative latitude — rendered
with the fixed `°N`/`°E` suffixes and a leading minus sign. -/
theorem coordinates_fixed_suffix_witness :
    (mkRat (-338688) 10000 < (0 : ℚ)) ∧
    (formatFixed 4 (mkRat (-338688) 10000) ++ "°N, " ++
        formatFixed 4 (mkRat 1512093 10000) ++ "°E").data.head? = some '-' ∧
    formatFixed 4 (mkRat (-338688) 10000) ++ "°N, " ++
        formatFixed 4 (mkRat 1512093 10000) ++ "°E" = "-33.8688°N, 151.2093°E" :=
  ⟨by decide,
   (coordinates_fixed_suffix ("Sydney") ("Sydney, New South Wales, Australia")
      (mkRat (-338688) 10000) (mkRat 1512093 10000) ⟨2024, 3, 15⟩
      ⟨PFloat.val 0, PFloat.val 0, PFloat.val 0, PFloat.val 0, PFloat.val 0,
       "2024-03-15", "Australia/Sydney"⟩
      ⟨2026, 1, 10, 14, 30⟩).2.2 (by decide),
   by decide⟩
